import Mathlib

/-!
Shallow embedding of the reconciliation engine of `dbt-superset`
(`dbt_superset/push_descriptions.py` and `dbt_superset/superset_api.py`),
with theorems settling the specification claims about it.

Conventions of the embedding:
* Python dictionaries with a fixed key set become structures; mappings with
  dynamic keys become association lists (`List (key × value)`), looked up with
  `List.lookup` (first match; the Python dicts these model have unique keys).
* A value that may be Python `None` (or an absent key) becomes an `Option`.
* Markdown-to-plain-text conversion (`convert_markdown_to_plain_text`) is an
  external collaborator; it is passed in as a function parameter `conv`.
* Functions that can raise (`assert`) return `Except`.
* Network writes are modelled by returning the list of issued calls.
-/

namespace DbtSuperset

/-- An owner record as returned by `GET /dataset/{id}` (only the `id` field
is ever read: `merge_columns_info` line 243). -/
structure Owner where
  id : Nat
deriving DecidableEq

/-- A column of a Superset dataset, as stored in `dataset['columns']` after
`add_superset_columns`: the fields read by `merge_columns_info` and
`put_descriptions_to_superset`. -/
structure SstColumn where
  column_name : String
  id : Nat
  description : Option String
  expression : Option String
deriving DecidableEq

/-- An element of `columns_new` built by `merge_columns_info` (lines 211-232):
exactly the keys `column_name`, `id`, `description`.  `columns_old` in
`put_descriptions_to_superset` (lines 268-272) is projected to the same keys,
so Python dict equality on these is structural equality here. -/
structure ColNew where
  column_name : String
  id : Nat
  description : Option String
deriving DecidableEq

/-- A dbt column entry as stored in `tables[key]['columns'][name]`.
`description = none` models an entry without a `description` key
(the code guards with `'description' in dbt_columns[column_name]`). -/
structure DbtColumn where
  description : Option String
deriving DecidableEq

/-- A value of the `tables` mapping built by `get_tables_from_dbt`
(line 134): `{'columns': ..., 'description': ...}`. -/
structure DbtTable where
  columns : List (String × DbtColumn)
  description : Option String
deriving DecidableEq

/-- An entry of the default-descriptions mapping `{<name>: {desc: ...}}`;
`desc = none` models an entry without a `desc` key (the code guards with
`'desc' in default_column_descs[column_name]`). -/
structure DefaultDesc where
  desc : Option String
deriving DecidableEq

/-- The per-dataset record flowing through the pipeline: the fields set by
`get_datasets_from_superset` (`id`, `key`), refreshed in place by
`add_superset_columns` (`columns`, `description`, `owners`), and the three
delta fields added by `merge_columns_info`. -/
structure Dataset where
  id : Nat
  key : String
  columns : List SstColumn
  description : Option String
  owners : List Owner
  columns_new : List ColNew := []
  description_new : Option String := none
  owners_new : List Nat := []
deriving DecidableEq

/-- `tables.get(key, {}).get('columns', {})` (line 197). -/
def dbtColumnsFor (key : String) (tables : List (String × DbtTable)) :
    List (String × DbtColumn) :=
  match List.lookup key tables with
  | some t => t.columns
  | none => []

/-- `tables.get(key, {}).get('description')` (line 201). -/
def dbtDescriptionFor (key : String) (tables : List (String × DbtTable)) :
    Option String :=
  match List.lookup key tables with
  | some t => t.description
  | none => none

/-- The `elif` fallback of the per-column merge (lines 225-228): reached only
when the dbt branch did not fire; uses the default description when the
defaults map has an entry with a `desc` key, else keeps the current one. -/
def defaultFallback (conv : String → String) (defCols : List (String × DefaultDesc))
    (c : SstColumn) : Option String :=
  match List.lookup c.column_name defCols with
  | some dd =>
    match dd.desc with
    | some d => some (conv d)
    | none => c.description
  | none => c.description

/-- One iteration of the `for sst_column in sst_columns` loop of
`merge_columns_info` (lines 206-232). -/
def mergeColumn (conv : String → String) (dbtCols : List (String × DbtColumn))
    (defCols : List (String × DefaultDesc)) (c : SstColumn) : ColNew :=
  let description :=
    if c.expression = none ∨ c.expression = some "" then
      match List.lookup c.column_name dbtCols with
      | some dc =>
        match dc.description with
        | some d => some (conv d)
        | none => defaultFallback conv defCols c
      | none => defaultFallback conv defCols c
    else c.description
  ⟨c.column_name, c.id, description⟩

/-- `merge_columns_info(dataset, tables, default_descriptions)` (lines 193-245).
`default_descriptions.get('columns', {})` is modelled by an optional mapping
defaulted to `[]`.  The Python function mutates `dataset` by assigning the
three `*_new` keys and returns it; here that is a functional record update. -/
def merge_columns_info (conv : String → String) (dataset : Dataset)
    (tables : List (String × DbtTable))
    (default_descriptions : Option (List (String × DefaultDesc))) : Dataset :=
  let dbtCols := dbtColumnsFor dataset.key tables
  let defCols := default_descriptions.getD []
  { dataset with
    columns_new := dataset.columns.map (mergeColumn conv dbtCols defCols)
    description_new :=
      match dbtDescriptionFor dataset.key tables with
      | none => dataset.description
      | some d => some (conv d)
    owners_new := dataset.owners.map Owner.id }

/-- The projection of a stored column to `{'column_name', 'id', 'description'}`
performed when building `columns_old` (lines 268-272). -/
def colProj (c : SstColumn) : ColNew :=
  ⟨c.column_name, c.id, c.description⟩

/-- Python's stable `sorted(lst, key=lambda c: c["id"])`. -/
def sortById (l : List ColNew) : List ColNew :=
  List.insertionSort (fun a b => a.id ≤ b.id) l

/-- `check_columns_equal` (lines 248-249): compare the two column lists after
a stable sort by `id`. -/
def check_columns_equal (lst1 lst2 : List ColNew) : Bool :=
  decide (sortById lst1 = sortById lst2)

/-- The PUT payload `{'description': ..., 'columns': ..., 'owners': ...}`
(line 276). -/
structure Payload where
  description : Option String
  columns : List ColNew
  owners : List Nat
deriving DecidableEq

/-- `put_descriptions_to_superset` (lines 260-281), modelled by the list of
write calls it issues: one PUT when the new description differs from the old
one or the columns compare unequal, none otherwise.  Owners are never
compared; `owners_new` only rides along in the payload. -/
def put_descriptions_to_superset (dataset : Dataset) : List Payload :=
  if dataset.description_new ≠ dataset.description ∨
      check_columns_equal dataset.columns_new (dataset.columns.map colProj) = false then
    [⟨dataset.description_new, dataset.columns_new, dataset.owners_new⟩]
  else
    []

/-- Checks whether `needle` starts `hay` (over character lists). -/
def listStartsWith : List Char → List Char → Bool
  | [], _ => true
  | _ :: _, [] => false
  | a :: as, b :: bs => a == b && listStartsWith as bs

/-- Checks whether `needle` occurs as a contiguous substring of `hay`
(Python's `needle in hay` on strings). -/
def listHasSub (needle : List Char) : List Char → Bool
  | [] => listStartsWith needle []
  | c :: t => listStartsWith needle (c :: t) || listHasSub needle t

/-- Python's `sub in s` for strings. -/
def strContains (s sub : String) : Bool :=
  listHasSub sub.data s.data

/-- A raw record of the paginated `GET /dataset/` listing: the fields read
by `get_datasets_from_superset` (lines 36-47). -/
structure RawRecord where
  kind : String
  database_id : Nat
  id : Nat
  table_name : String
  schema : String
deriving DecidableEq

/-- The `f'{schema}.{name}'` unique identifier (line 47). -/
def recordKey (r : RawRecord) : String :=
  r.schema ++ "." ++ r.table_name

/-- The element appended to `datasets` (lines 55-58). -/
structure DatasetRef where
  id : Nat
  key : String
deriving DecidableEq

/-- Whether `dataset_filter and dataset_filter not in dataset_key` makes the
loop `continue` (lines 49-51); a `none` or empty-string filter is falsy and
skips nothing. -/
def filterSkips (dataset_filter : Option String) (key : String) : Bool :=
  match dataset_filter with
  | none => false
  | some f => if f = "" then false else !(strContains key f)

/-- Whether a raw record survives all three filters of
`get_datasets_from_superset` (lines 40-51): physical kind, optional database
id, optional key-substring filter. -/
def acceptRecord (superset_db_id : Option Nat) (dataset_filter : Option String)
    (r : RawRecord) : Bool :=
  (r.kind == "physical" && superset_db_id.elim true (fun i => r.database_id == i))
    && !(filterSkips dataset_filter (recordKey r))

/-- The fatal `assert` failures of the fetcher and the loader. -/
inductive FatalError where
  | dupKey (key : String)
  | noData
deriving DecidableEq

/-- The body of the `for r in result` loop (lines 36-68), threading the
`datasets` list and the `datasets_keys` set; the duplicate-key `assert`
(lines 61-65) aborts with `dupKey`. -/
def processRecords (superset_db_id : Option Nat) (dataset_filter : Option String) :
    List RawRecord → List DatasetRef → List String →
    Except FatalError (List DatasetRef × List String)
  | [], datasets, keys => .ok (datasets, keys)
  | r :: rs, datasets, keys =>
    if acceptRecord superset_db_id dataset_filter r then
      if recordKey r ∈ keys then .error (.dupKey (recordKey r))
      else
        processRecords superset_db_id dataset_filter rs
          (datasets ++ [⟨r.id, recordKey r⟩]) (recordKey r :: keys)
    else
      processRecords superset_db_id dataset_filter rs datasets keys

/-- The `while True` pagination loop (lines 23-71): the remote listing is a
list of pages; an empty page (or the end of the list, which stands for the
server answering empty ever after) breaks the loop. -/
def fetchPages (superset_db_id : Option Nat) (dataset_filter : Option String) :
    List (List RawRecord) → List DatasetRef → List String →
    Except FatalError (List DatasetRef)
  | [], datasets, _ => .ok datasets
  | page :: rest, datasets, keys =>
    if page.isEmpty then .ok datasets
    else
      match processRecords superset_db_id dataset_filter page datasets keys with
      | .error e => .error e
      | .ok (datasets', keys') =>
        fetchPages superset_db_id dataset_filter rest datasets' keys'

/-- `get_datasets_from_superset` (lines 17-75): paginate, filter, enforce key
uniqueness, and fail with `noData` when the collection ends up empty
(line 73). -/
def get_datasets_from_superset (superset_db_id : Option Nat)
    (dataset_filter : Option String) (pages : List (List RawRecord)) :
    Except FatalError (List DatasetRef) :=
  match fetchPages superset_db_id dataset_filter pages [] [] with
  | .error e => .error e
  | .ok datasets => if datasets.isEmpty then .error .noData else .ok datasets

/-- The records the pagination loop actually iterates over: the
concatenation of the pages before the first empty one. -/
def processedRecords : List (List RawRecord) → List RawRecord
  | [] => []
  | page :: rest => if page.isEmpty then [] else page ++ processedRecords rest

/-- A manifest table entry: the fields read by `get_tables_from_dbt`
(lines 117-124). -/
structure ManifestTable where
  name : String
  schema : String
  database : String
  columns : List (String × DbtColumn)
  description : Option String
deriving DecidableEq

/-- The dbt manifest, partitioned into `nodes` and `sources` (line 113),
each a mapping keyed by a long internal identifier. -/
structure Manifest where
  nodes : List (String × ManifestTable)
  sources : List (String × ManifestTable)
deriving DecidableEq

/-- Whether a manifest table passes the `dbt_db_name is None or database ==
dbt_db_name` filter (line 126). -/
def acceptTable (dbt_db_name : Option String) (t : ManifestTable) : Bool :=
  match dbt_db_name with
  | none => true
  | some db => t.database == db

/-- The `schema + '.' + name` key (line 122). -/
def tableKey (t : ManifestTable) : String :=
  t.schema ++ "." ++ t.name

/-- The loop body of `get_tables_from_dbt` (lines 116-134), run over the
concatenated `nodes` and `sources` partitions with one shared `tables`
mapping; the duplicate-key `assert` (lines 128-132) aborts with `dupKey`. -/
def loadTables (dbt_db_name : Option String) :
    List (String × ManifestTable) → List (String × DbtTable) →
    Except FatalError (List (String × DbtTable))
  | [], tables => .ok tables
  | (_, t) :: rest, tables =>
    if acceptTable dbt_db_name t then
      if (List.lookup (tableKey t) tables).isSome then .error (.dupKey (tableKey t))
      else loadTables dbt_db_name rest (tables ++ [(tableKey t, ⟨t.columns, t.description⟩)])
    else loadTables dbt_db_name rest tables

/-- `get_tables_from_dbt` (lines 111-138): iterate `nodes` then `sources`,
filter by database, enforce key uniqueness, fail with `noData` when the
mapping ends up empty (line 136). -/
def get_tables_from_dbt (dbt_manifest : Manifest) (dbt_db_name : Option String) :
    Except FatalError (List (String × DbtTable)) :=
  match loadTables dbt_db_name (dbt_manifest.nodes ++ dbt_manifest.sources) [] with
  | .error e => .error e
  | .ok tables => if tables.isEmpty then .error .noData else .ok tables

/-- An HTTP request as issued through `requests.request(method, url,
headers=..., **request_kwargs)`; `kwargs` stands for the keyword arguments
carrying the query parameters and the JSON body. -/
structure HttpRequest where
  method : String
  url : String
  headers : List (String × String)
  kwargs : List (String × String)
deriving DecidableEq

/-- The token state of a `Superset` session (superset_api.py lines 20-24). -/
structure SessionState where
  access_token : Option String
  refresh_token : Option String
deriving DecidableEq

/-- `Superset._headers` (lines 41-48): prepend the bearer access token when
one is held. -/
def mkHeaders (s : SessionState) (extra : List (String × String)) :
    List (String × String) :=
  match s.access_token with
  | none => extra
  | some t => ("Authorization", "Bearer " ++ t) :: extra

/-- What `Superset.request` reads off the first response: its status code
and `res.json().get('msg')`. -/
structure HttpResponse where
  status : Nat
  msg : Option String
deriving DecidableEq

/-- The outbound requests issued by one call of `Superset.request`
(lines 65-102, with `refresh_token_if_needed=True`), given the first
response and whether the `/security/refresh` exchange succeeds with a new
token `newTok`.  The first request is line 91; when the response is a 401
carrying `msg == 'Token has expired'` and `_refresh_access_token()` returns
true, the retry of line 98 is issued — with the refreshed bearer token but
WITHOUT `**request_kwargs`, exactly as the source spells it:
`requests.request(method, url, headers=self._headers(**headers))`. -/
def supersetRequestCalls (api_url : String) (s : SessionState) (newTok : String)
    (method endpoint : String) (extra kwargs : List (String × String))
    (resp : HttpResponse) (refreshOk : Bool) : List HttpRequest :=
  let url := api_url ++ endpoint
  let first : HttpRequest := ⟨method, url, mkHeaders s extra, kwargs⟩
  if resp.status = 401 ∧ resp.msg = some "Token has expired" ∧
      s.refresh_token ≠ none ∧ refreshOk then
    [first, ⟨method, url, mkHeaders { s with access_token := some newTok } extra, []⟩]
  else
    [first]

/-- The possible outcomes of the credential check at the top of `main`
(push_descriptions.py lines 288-292). -/
inductive StartupCheck where
  | proceed
  | missingCredsAssertion
  | nameError
deriving DecidableEq

/-- The credential check of `main` (lines 288-292):
`assert username is not None or superset_refresh_token is not None, ...`.
The left operand of `or` short-circuits when `username` is set; otherwise
Python evaluates `superset_refresh_token`, a name defined nowhere in scope,
and the statement raises `NameError` — never the missing-credentials
`AssertionError`, and without ever reading `password`. -/
def mainCredentialCheck (username _password : Option String) : StartupCheck :=
  match username with
  | some _ => .proceed
  | none => .nameError

instance : IsTotal ColNew (fun a b => a.id ≤ b.id) :=
  ⟨fun a b => Nat.le_total a.id b.id⟩

instance : IsTrans ColNew (fun a b => a.id ≤ b.id) :=
  ⟨fun _ _ _ h1 h2 => Nat.le_trans h1 h2⟩

instance : IsAntisymm ColNew (fun a b => a.id < b.id) :=
  ⟨fun _ _ h1 h2 => absurd h2 (Nat.lt_asymm h1)⟩

theorem sortById_perm (l : List ColNew) : (sortById l).Perm l :=
  List.perm_insertionSort _ l

theorem sortById_sorted (l : List ColNew) :
    List.Sorted (fun a b => a.id ≤ b.id) (sortById l) :=
  List.sorted_insertionSort _ l

theorem pairwise_lt_of_le_nodup {l : List ColNew}
    (hs : List.Pairwise (fun a b : ColNew => a.id ≤ b.id) l)
    (hn : (l.map ColNew.id).Nodup) :
    List.Pairwise (fun a b : ColNew => a.id < b.id) l := by
  have hp : l.Pairwise (fun a b : ColNew => a.id ≠ b.id) := List.pairwise_map.mp hn
  exact (hs.and hp).imp (fun h => Nat.lt_of_le_of_ne h.1 h.2)

/-- When both column lists carry pairwise-distinct ids, the code's
sort-then-compare `check_columns_equal` is exactly order-independent
equality keyed by id, i.e. equality as multisets. -/
theorem check_columns_equal_iff_perm {l1 l2 : List ColNew}
    (h1 : (l1.map ColNew.id).Nodup) (h2 : (l2.map ColNew.id).Nodup) :
    check_columns_equal l1 l2 = true ↔ l1.Perm l2 := by
  constructor
  · intro h
    have he : sortById l1 = sortById l2 := of_decide_eq_true h
    exact (sortById_perm l1).symm.trans (he ▸ sortById_perm l2)
  · intro hp
    apply decide_eq_true
    have hperm : (sortById l1).Perm (sortById l2) :=
      ((sortById_perm l1).trans hp).trans (sortById_perm l2).symm
    have hn1 : ((sortById l1).map ColNew.id).Nodup :=
      (((sortById_perm l1).map ColNew.id).nodup_iff).mpr h1
    have hn2 : ((sortById l2).map ColNew.id).Nodup :=
      (((sortById_perm l2).map ColNew.id).nodup_iff).mpr h2
    exact List.eq_of_perm_of_sorted hperm
      (pairwise_lt_of_le_nodup (sortById_sorted l1) hn1)
      (pairwise_lt_of_le_nodup (sortById_sorted l2) hn2)

/-- C10: `merge_columns_info` leaves the dataset's pre-existing fields `id`,
`key`, `columns`, `description` and `owners` unchanged; it only fills the
three delta fields `columns_new`, `description_new`, `owners_new`, so the
writer's old-vs-new comparison reads the genuine pre-merge state. -/
theorem C10_merge_frame (conv : String → String) (d : Dataset)
    (tables : List (String × DbtTable)) (dd : Option (List (String × DefaultDesc))) :
    (merge_columns_info conv d tables dd).id = d.id ∧
    (merge_columns_info conv d tables dd).key = d.key ∧
    (merge_columns_info conv d tables dd).columns = d.columns ∧
    (merge_columns_info conv d tables dd).description = d.description ∧
    (merge_columns_info conv d tables dd).owners = d.owners :=
  ⟨rfl, rfl, rfl, rfl, rfl⟩

/-- C8: the merged dataset-level description keeps the target's current
description when the matched source table has no description
(`tables.get(key, {}).get('description')` is `None`), and otherwise is the
plain-text conversion of the source description. -/
theorem C8_dataset_description (conv : String → String) (d : Dataset)
    (tables : List (String × DbtTable)) (dd : Option (List (String × DefaultDesc))) :
    (merge_columns_info conv d tables dd).description_new =
      match dbtDescriptionFor d.key tables with
      | none => d.description
      | some s => some (conv s) :=
  rfl

/-- C4: for a physical column (empty or absent `expression`) that has both a
matching source-table column description and an entry in the defaults map,
the merged description is the plain-text conversion of the source
description — the default never wins. -/
theorem C4_source_beats_default (conv : String → String) (d : Dataset)
    (tables : List (String × DbtTable)) (dd : Option (List (String × DefaultDesc)))
    (i : Nat) (c : SstColumn) (dc : DbtColumn) (srcDesc : String) (defEntry : DefaultDesc)
    (hc : d.columns[i]? = some c)
    (hphys : c.expression = none ∨ c.expression = some "")
    (hdc : List.lookup c.column_name (dbtColumnsFor d.key tables) = some dc)
    (hsrc : dc.description = some srcDesc)
    (hdef : List.lookup c.column_name (dd.getD []) = some defEntry) :
    (merge_columns_info conv d tables dd).columns_new[i]? =
      some ⟨c.column_name, c.id, some (conv srcDesc)⟩ := by
  simp only [merge_columns_info, List.getElem?_map, hc, Option.map_some]
  simp [mergeColumn, hdc, hsrc, if_pos hphys]

/-- Witness for C4 at a concrete input (identity conversion): the source
description `"Order amount"` wins over the default `"a default"`. -/
theorem C4_source_beats_default_witness :
    (merge_columns_info (fun s => s)
        { id := 7, key := "sales.orders",
          columns := [⟨"amount", 1, some "", some ""⟩],
          description := some "old", owners := [⟨1⟩] }
        [("sales.orders", ⟨[("amount", ⟨some "Order amount"⟩)], some "Orders table"⟩)]
        (some [("amount", ⟨some "a default"⟩)])).columns_new[0]? =
      some ⟨"amount", 1, some "Order amount"⟩ :=
  C4_source_beats_default (fun s => s)
    { id := 7, key := "sales.orders",
      columns := [⟨"amount", 1, some "", some ""⟩],
      description := some "old", owners := [⟨1⟩] }
    [("sales.orders", ⟨[("amount", ⟨some "Order amount"⟩)], some "Orders table"⟩)]
    (some [("amount", ⟨some "a default"⟩)])
    0 ⟨"amount", 1, some "", some ""⟩ ⟨some "Order amount"⟩ "Order amount" ⟨some "a default"⟩
    (by decide) (Or.inr rfl) (by decide) rfl (by decide)

/-- C5: a computed column — one whose `expression` is non-empty — keeps its
current description in `columns_new`, whatever the source table or the
defaults map say about that column name. -/
theorem C5_computed_column_untouched (conv : String → String) (d : Dataset)
    (tables : List (String × DbtTable)) (dd : Option (List (String × DefaultDesc)))
    (i : Nat) (c : SstColumn) (e : String)
    (hc : d.columns[i]? = some c)
    (he : c.expression = some e) (hne : e ≠ "") :
    (merge_columns_info conv d tables dd).columns_new[i]? =
      some ⟨c.column_name, c.id, c.description⟩ := by
  have hcond : ¬(c.expression = none ∨ c.expression = some "") := by
    rintro (h | h) <;> rw [he] at h
    · exact Option.noConfusion h
    · exact hne (Option.some.injEq e "" ▸ h)
  simp only [merge_columns_info, List.getElem?_map, hc, Option.map_some]
  simp [mergeColumn, if_neg hcond]

/-- Witness for C5 at a concrete input: a computed column (`expression =
"a+b"`) keeps its description `"keep me"` although both the source table and
the defaults map carry another text for `"total"`. -/
theorem C5_computed_column_untouched_witness :
    (merge_columns_info (fun s => s)
        { id := 7, key := "sales.orders",
          columns := [⟨"total", 2, some "keep me", some "a+b"⟩],
          description := some "old", owners := [⟨1⟩] }
        [("sales.orders", ⟨[("total", ⟨some "from source"⟩)], none⟩)]
        (some [("total", ⟨some "from default"⟩)])).columns_new[0]? =
      some ⟨"total", 2, some "keep me"⟩ :=
  C5_computed_column_untouched (fun s => s)
    { id := 7, key := "sales.orders",
      columns := [⟨"total", 2, some "keep me", some "a+b"⟩],
      description := some "old", owners := [⟨1⟩] }
    [("sales.orders", ⟨[("total", ⟨some "from source"⟩)], none⟩)]
    (some [("total", ⟨some "from default"⟩)])
    0 ⟨"total", 2, some "keep me", some "a+b"⟩ "a+b"
    (by decide) rfl (by decide)

/-- C2: evaluated at a concrete expired-token scenario, `Superset.request`
does NOT retry the exact same request: the retried call of
superset_api.py line 98 omits `**request_kwargs`, so the original query
parameters `[("params", "page=0")]` are dropped from the retry, which goes
out with an empty keyword-argument set.  Method, URL and extra headers are
preserved and the bearer token is the refreshed one, but the body/parameters
are not resent — refuting the claim that the retried request is identical. -/
theorem C2_retry_drops_request_kwargs :
    supersetRequestCalls "https://superset/api/v1" ⟨some "tokA", some "tokR"⟩ "tokB"
      "GET" "/dataset/" [] [("params", "page=0")] ⟨401, some "Token has expired"⟩ true =
    [⟨"GET", "https://superset/api/v1/dataset/",
        [("Authorization", "Bearer tokA")], [("params", "page=0")]⟩,
     ⟨"GET", "https://superset/api/v1/dataset/",
        [("Authorization", "Bearer tokB")], []⟩] := by
  decide

/-- C9: with both credentials absent, the startup check of `main`
(push_descriptions.py lines 288-292) does not fail with the
missing-credentials `AssertionError` the claim describes: evaluating the
undefined name `superset_refresh_token` raises `NameError` instead (and
`password` is never consulted at all). -/
theorem C9_missing_creds_check_raises_name_error :
    mainCredentialCheck none none = StartupCheck.nameError ∧
    mainCredentialCheck none none ≠ StartupCheck.missingCredsAssertion := by
  decide

/-- The keys of the records that survive the fetcher's filters, in
processing order. -/
def acceptedKeys (superset_db_id : Option Nat) (dataset_filter : Option String)
    (rs : List RawRecord) : List String :=
  (rs.filter (acceptRecord superset_db_id dataset_filter)).map recordKey

/-- The short keys of the manifest entries that survive the loader's
database filter, in processing order. -/
def acceptedTableKeys (dbt_db_name : Option String)
    (entries : List (String × ManifestTable)) : List String :=
  (entries.filter (fun p => acceptTable dbt_db_name p.2)).map (fun p => tableKey p.2)

theorem processRecords_ok_nodup (db : Option Nat) (fil : Option String) :
    ∀ (rs : List RawRecord) (acc : List DatasetRef) (keys : List String)
      (res : List DatasetRef × List String),
    processRecords db fil rs acc keys = .ok res →
    (acceptedKeys db fil rs).Nodup ∧ ∀ k ∈ acceptedKeys db fil rs, k ∉ keys := by
  intro rs
  induction rs with
  | nil =>
    intro acc keys res _
    simp [acceptedKeys]
  | cons r rs ih =>
    intro acc keys res h
    by_cases ha : acceptRecord db fil r = true
    · have hacc : acceptedKeys db fil (r :: rs) = recordKey r :: acceptedKeys db fil rs := by
        simp [acceptedKeys, List.filter_cons, ha]
      rw [processRecords, if_pos ha] at h
      by_cases hm : recordKey r ∈ keys
      · rw [if_pos hm] at h
        exact absurd h (by simp)
      · rw [if_neg hm] at h
        obtain ⟨hnd, hnin⟩ := ih _ _ _ h
        rw [hacc]
        constructor
        · refine List.nodup_cons.mpr ⟨fun hmem => ?_, hnd⟩
          exact (hnin _ hmem) (List.mem_cons_self _ _)
        · intro k hk
          rcases List.mem_cons.mp hk with rfl | hk'
          · exact hm
          · exact fun hkk => (hnin _ hk') (List.mem_cons_of_mem _ hkk)
    · have hacc : acceptedKeys db fil (r :: rs) = acceptedKeys db fil rs := by
        simp [acceptedKeys, List.filter_cons, ha]
      rw [processRecords, if_neg ha] at h
      rw [hacc]
      exact ih _ _ _ h

theorem processRecords_ok_or_dup (db : Option Nat) (fil : Option String) :
    ∀ (rs : List RawRecord) (acc : List DatasetRef) (keys : List String),
    (∃ res, processRecords db fil rs acc keys = .ok res) ∨
    (∃ k, processRecords db fil rs acc keys = .error (.dupKey k)) := by
  intro rs
  induction rs with
  | nil =>
    intro acc keys
    exact Or.inl ⟨(acc, keys), rfl⟩
  | cons r rs ih =>
    intro acc keys
    by_cases ha : acceptRecord db fil r = true
    · by_cases hm : recordKey r ∈ keys
      · refine Or.inr ⟨recordKey r, ?_⟩
        rw [processRecords, if_pos ha, if_pos hm]
      · have := ih (acc ++ [⟨r.id, recordKey r⟩]) (recordKey r :: keys)
        rw [processRecords, if_pos ha, if_neg hm]
        exact this
    · rw [processRecords, if_neg ha]
      exact ih acc keys

theorem processRecords_append (db : Option Nat) (fil : Option String) :
    ∀ (l1 l2 : List RawRecord) (acc : List DatasetRef) (keys : List String),
    processRecords db fil (l1 ++ l2) acc keys =
      match processRecords db fil l1 acc keys with
      | .error e => .error e
      | .ok (acc2, keys2) => processRecords db fil l2 acc2 keys2 := by
  intro l1
  induction l1 with
  | nil =>
    intro l2 acc keys
    simp [processRecords]
  | cons r l1 ih =>
    intro l2 acc keys
    simp only [List.cons_append, processRecords]
    by_cases ha : acceptRecord db fil r = true
    · rw [if_pos ha, if_pos ha]
      by_cases hm : recordKey r ∈ keys
      · rw [if_pos hm, if_pos hm]
      · rw [if_neg hm, if_neg hm]
        exact ih l2 _ _
    · rw [if_neg ha, if_neg ha]
      exact ih l2 _ _

theorem fetchPages_eq_processRecords (db : Option Nat) (fil : Option String) :
    ∀ (pages : List (List RawRecord)) (acc : List DatasetRef) (keys : List String),
    fetchPages db fil pages acc keys =
      match processRecords db fil (processedRecords pages) acc keys with
      | .error e => .error e
      | .ok (acc2, _) => .ok acc2 := by
  intro pages
  induction pages with
  | nil =>
    intro acc keys
    simp [fetchPages, processedRecords, processRecords]
  | cons p rest ih =>
    intro acc keys
    simp only [fetchPages, processedRecords]
    by_cases hp : p.isEmpty = true
    · rw [if_pos hp, if_pos hp]
      simp [processRecords]
    · rw [if_neg hp, if_neg hp, processRecords_append]
      cases hpr : processRecords db fil p acc keys with
      | error e => rfl
      | ok res =>
        cases res with
        | mk acc2 keys2 => exact ih acc2 keys2

theorem lookup_append_none {α β : Type} [BEq α] (k : α) (l1 l2 : List (α × β)) :
    List.lookup k (l1 ++ l2) = none ↔
      List.lookup k l1 = none ∧ List.lookup k l2 = none := by
  induction l1 with
  | nil => simp [List.lookup]
  | cons p l1 ih =>
    cases p with
    | mk a b =>
      simp only [List.cons_append, List.lookup]
      cases h : k == a
      · simpa using ih
      · simp

theorem loadTables_ok_nodup (db : Option String) :
    ∀ (entries : List (String × ManifestTable)) (tables : List (String × DbtTable))
      (res : List (String × DbtTable)),
    loadTables db entries tables = .ok res →
    (acceptedTableKeys db entries).Nodup ∧
      ∀ k ∈ acceptedTableKeys db entries, List.lookup k tables = none := by
  intro entries
  induction entries with
  | nil =>
    intro tables res _
    simp [acceptedTableKeys]
  | cons e rest ih =>
    intro tables res h
    cases e with
    | mk longKey t =>
      by_cases ha : acceptTable db t = true
      · have hacc : acceptedTableKeys db ((longKey, t) :: rest) =
            tableKey t :: acceptedTableKeys db rest := by
          simp [acceptedTableKeys, List.filter_cons, ha]
        rw [loadTables, if_pos ha] at h
        by_cases hm : (List.lookup (tableKey t) tables).isSome = true
        · rw [if_pos hm] at h
          exact absurd h (by simp)
        · rw [if_neg hm] at h
          obtain ⟨hnd, hnin⟩ := ih _ _ h
          have hmnone : List.lookup (tableKey t) tables = none :=
            Option.not_isSome_iff_eq_none.mp hm
          rw [hacc]
          constructor
          · refine List.nodup_cons.mpr ⟨fun hmem => ?_, hnd⟩
            have h2 := ((lookup_append_none (tableKey t) tables _).mp (hnin _ hmem)).2
            simp [List.lookup] at h2
          · intro k hk
            rcases List.mem_cons.mp hk with rfl | hk'
            · exact hmnone
            · exact ((lookup_append_none k tables _).mp (hnin _ hk')).1
      · have hacc : acceptedTableKeys db ((longKey, t) :: rest) =
            acceptedTableKeys db rest := by
          simp [acceptedTableKeys, List.filter_cons, ha]
        rw [loadTables, if_neg ha] at h
        rw [hacc]
        exact ih _ _ h

theorem loadTables_ok_or_dup (db : Option String) :
    ∀ (entries : List (String × ManifestTable)) (tables : List (String × DbtTable)),
    (∃ res, loadTables db entries tables = .ok res) ∨
    (∃ k, loadTables db entries tables = .error (.dupKey k)) := by
  intro entries
  induction entries with
  | nil =>
    intro tables
    exact Or.inl ⟨tables, rfl⟩
  | cons e rest ih =>
    intro tables
    cases e with
    | mk longKey t =>
      by_cases ha : acceptTable db t = true
      · by_cases hm : (List.lookup (tableKey t) tables).isSome = true
        · refine Or.inr ⟨tableKey t, ?_⟩
          rw [loadTables, if_pos ha, if_pos hm]
        · rw [loadTables, if_pos ha, if_neg hm]
          exact ih _
      · rw [loadTables, if_neg ha]
        exact ih _

/-- C6: whenever two entities that pass the filters map to the same
`<schema>.<name>` key, both `get_datasets_from_superset` (over the records
its pagination loop visits) and `get_tables_from_dbt` fail with the
duplicate-key fatal error and return no collection. -/
theorem C6_duplicate_key_is_fatal (superset_db_id : Option Nat)
    (dataset_filter : Option String) (pages : List (List RawRecord))
    (m : Manifest) (dbt_db_name : Option String)
    (hdup1 : ¬ (acceptedKeys superset_db_id dataset_filter (processedRecords pages)).Nodup)
    (hdup2 : ¬ (acceptedTableKeys dbt_db_name (m.nodes ++ m.sources)).Nodup) :
    (∃ k, get_datasets_from_superset superset_db_id dataset_filter pages =
      .error (.dupKey k)) ∧
    (∃ k, get_tables_from_dbt m dbt_db_name = .error (.dupKey k)) := by
  constructor
  · rcases processRecords_ok_or_dup superset_db_id dataset_filter
        (processedRecords pages) [] [] with ⟨res, hok⟩ | ⟨k, herr⟩
    · exact absurd (processRecords_ok_nodup _ _ _ _ _ _ hok).1 hdup1
    · refine ⟨k, ?_⟩
      unfold get_datasets_from_superset
      rw [fetchPages_eq_processRecords, herr]
  · rcases loadTables_ok_or_dup dbt_db_name (m.nodes ++ m.sources) []
        with ⟨res, hok⟩ | ⟨k, herr⟩
    · exact absurd (loadTables_ok_nodup _ _ _ _ hok).1 hdup2
    · refine ⟨k, ?_⟩
      unfold get_tables_from_dbt
      rw [herr]

/-- Witness for C6 at concrete inputs: one page holding two physical records
keyed `sales.orders`, and a manifest whose `nodes` holds two tables keyed
`sales.orders`; both functions fail with the duplicate-key error. -/
theorem C6_duplicate_key_is_fatal_witness :
    (∃ k, get_datasets_from_superset none none
        [[⟨"physical", 1, 10, "orders", "sales"⟩,
          ⟨"physical", 2, 11, "orders", "sales"⟩], []] = .error (.dupKey k)) ∧
    (∃ k, get_tables_from_dbt
        ⟨[("model.a.orders", ⟨"orders", "sales", "db1", [], none⟩),
          ("model.b.orders", ⟨"orders", "sales", "db2", [], none⟩)], []⟩ none =
      .error (.dupKey k)) :=
  C6_duplicate_key_is_fatal none none
    [[⟨"physical", 1, 10, "orders", "sales"⟩,
      ⟨"physical", 2, 11, "orders", "sales"⟩], []]
    ⟨[("model.a.orders", ⟨"orders", "sales", "db1", [], none⟩),
      ("model.b.orders", ⟨"orders", "sales", "db2", [], none⟩)], []⟩ none
    (by decide) (by decide)

instance {ε α : Type} [DecidableEq ε] [DecidableEq α] : DecidableEq (Except ε α) :=
  fun x y =>
    match x, y with
    | .ok a, .ok b =>
      if h : a = b then isTrue (by rw [h])
      else isFalse (by intro hh; cases hh; exact h rfl)
    | .error a, .error b =>
      if h : a = b then isTrue (by rw [h])
      else isFalse (by intro hh; cases hh; exact h rfl)
    | .ok _, .error _ => isFalse (fun hh => Except.noConfusion hh)
    | .error _, .ok _ => isFalse (fun hh => Except.noConfusion hh)

theorem processedRecords_append_empty :
    ∀ (pages : List (List RawRecord)), (∀ p ∈ pages, p ≠ []) →
    processedRecords (pages ++ [[]]) = pages.flatten := by
  intro pages
  induction pages with
  | nil =>
    intro _
    simp [processedRecords]
  | cons p rest ih =>
    intro h
    have hp : ¬ p.isEmpty = true := by
      simpa [List.isEmpty_iff] using h p (List.mem_cons_self _ _)
    have hcons : (p :: rest) ++ [[]] = p :: (rest ++ [[]]) := rfl
    rw [hcons, processedRecords, if_neg hp,
      ih (fun q hq => h q (List.mem_cons_of_mem _ hq)), List.flatten_cons]

theorem processRecords_all_accepted_ok (db : Option Nat) (fil : Option String) :
    ∀ (rs : List RawRecord) (acc : List DatasetRef) (keys : List String),
    (acceptedKeys db fil rs).Nodup →
    (∀ k ∈ acceptedKeys db fil rs, k ∉ keys) →
    ∃ keys2, processRecords db fil rs acc keys =
      .ok (acc ++ (rs.filter (acceptRecord db fil)).map
        (fun r => (⟨r.id, recordKey r⟩ : DatasetRef)), keys2) := by
  intro rs
  induction rs with
  | nil =>
    intro acc keys _ _
    exact ⟨keys, by simp [processRecords]⟩
  | cons r rs ih =>
    intro acc keys hnd hdisj
    by_cases ha : acceptRecord db fil r = true
    · have hacc : acceptedKeys db fil (r :: rs) = recordKey r :: acceptedKeys db fil rs := by
        simp [acceptedKeys, List.filter_cons, ha]
      rw [hacc] at hnd hdisj
      have hm : recordKey r ∉ keys := hdisj _ (List.mem_cons_self _ _)
      have hnd' := List.nodup_cons.mp hnd
      obtain ⟨keys2, hk⟩ := ih (acc ++ [⟨r.id, recordKey r⟩]) (recordKey r :: keys)
        hnd'.2 (fun k hk => by
          rintro (hkk : k ∈ recordKey r :: keys)
          rcases List.mem_cons.mp hkk with rfl | hkk'
          · exact hnd'.1 hk
          · exact hdisj _ (List.mem_cons_of_mem _ hk) hkk')
      refine ⟨keys2, ?_⟩
      rw [processRecords, if_pos ha, if_neg hm, hk]
      simp [List.filter_cons, ha]
    · have hacc : acceptedKeys db fil (r :: rs) = acceptedKeys db fil rs := by
        simp [acceptedKeys, List.filter_cons, ha]
      rw [hacc] at hnd hdisj
      obtain ⟨keys2, hk⟩ := ih acc keys hnd hdisj
      refine ⟨keys2, ?_⟩
      rw [processRecords, if_neg ha, hk]
      simp [List.filter_cons, ha]

/-- C7 counterexample: one non-empty page of two physical records that share
the key `sales.orders`, followed by the empty page.  The claim says the
fetcher returns exactly the two records; instead the duplicate-key assertion
fires and no collection is returned. -/
theorem C7_duplicate_breaks_full_collection :
    get_datasets_from_superset none none
        [[⟨"physical", 1, 10, "orders", "sales"⟩,
          ⟨"physical", 2, 11, "orders", "sales"⟩], []] =
      .error (.dupKey "sales.orders") ∧
    get_datasets_from_superset none none
        [[⟨"physical", 1, 10, "orders", "sales"⟩,
          ⟨"physical", 2, 11, "orders", "sales"⟩], []] ≠
      .ok [⟨10, "sales.orders"⟩, ⟨11, "sales.orders"⟩] := by
  decide

/-- C7 (amended): for a finite sequence of non-empty pages of physical
records followed by one empty page, with no database-id or key-substring
filter, provided the records' keys are pairwise distinct and at least one
record exists, the fetcher terminates with exactly all records of the
non-empty pages, as `(id, key)` pairs in page-then-record order. -/
theorem C7_pagination_collects_all_records (pages : List (List RawRecord))
    (hne : ∀ p ∈ pages, p ≠ [])
    (hphys : ∀ p ∈ pages, ∀ r ∈ p, r.kind = "physical")
    (hkeys : (pages.flatten.map recordKey).Nodup)
    (hsome : pages.flatten ≠ []) :
    get_datasets_from_superset none none (pages ++ [[]]) =
      .ok (pages.flatten.map (fun r => (⟨r.id, recordKey r⟩ : DatasetRef))) := by
  have haccept : ∀ r ∈ pages.flatten, acceptRecord none none r = true := by
    intro r hr
    obtain ⟨p, hp, hrp⟩ := List.mem_flatten.mp hr
    simp [acceptRecord, filterSkips, hphys p hp r hrp]
  have hfilter : pages.flatten.filter (acceptRecord none none) = pages.flatten :=
    List.filter_eq_self.mpr haccept
  have hak : acceptedKeys none none pages.flatten = pages.flatten.map recordKey := by
    rw [acceptedKeys, hfilter]
  obtain ⟨keys2, hok⟩ := processRecords_all_accepted_ok none none pages.flatten [] []
    (by rw [hak]; exact hkeys) (by simp)
  unfold get_datasets_from_superset
  rw [fetchPages_eq_processRecords, processedRecords_append_empty pages hne, hok,
    hfilter]
  simp only [List.nil_append]
  rw [if_neg]
  simp only [List.isEmpty_iff, List.map_eq_nil_iff]
  exact hsome

/-- Witness for the amended C7: two non-empty pages with three distinct
physical records yield exactly those three records in page-then-record
order. -/
theorem C7_pagination_collects_all_records_witness :
    get_datasets_from_superset none none
        [[⟨"physical", 1, 10, "orders", "sales"⟩,
          ⟨"physical", 1, 11, "customers", "sales"⟩],
         [⟨"physical", 2, 12, "events", "web"⟩], []] =
      .ok [⟨10, "sales.orders"⟩, ⟨11, "sales.customers"⟩, ⟨12, "web.events"⟩] :=
  C7_pagination_collects_all_records
    [[⟨"physical", 1, 10, "orders", "sales"⟩,
      ⟨"physical", 1, 11, "customers", "sales"⟩],
     [⟨"physical", 2, 12, "events", "web"⟩]]
    (by decide) (by decide) (by decide) (by decide)

/-- C3 counterexample: a dataset whose delta differs from the current state
only in the owners field — `owners_new = [7]` while the current owners are
`[{id: 3}]` — yet `put_descriptions_to_superset` issues zero write calls,
because the code (lines 274-275) compares only the description and the
columns, never the owners.  The claim, which requires exactly one write when
any of the three fields differs, is therefore false at this input. -/
theorem C3_owners_diff_issues_no_write :
    (put_descriptions_to_superset
      { id := 1, key := "s.t", columns := [], description := some "x", owners := [⟨3⟩],
        columns_new := [], description_new := some "x", owners_new := [7] }).length = 0 ∧
    [7] ≠ (([⟨3⟩] : List Owner).map Owner.id) := by
  decide

/-- C3 (amended): the writer issues exactly one write call when the new
description differs from the current one or the new columns differ from the
current ones compared order-independently keyed by id, and zero write calls
when both are equal; owners are not part of the comparison.  The
pairwise-distinct-id hypotheses are what make the id-keyed order-independent
comparison well defined. -/
theorem C3_write_iff_description_or_columns_differ (d : Dataset)
    (h1 : (d.columns_new.map ColNew.id).Nodup)
    (h2 : ((d.columns.map colProj).map ColNew.id).Nodup) :
    (put_descriptions_to_superset d).length =
      if d.description_new = d.description ∧
          d.columns_new.Perm (d.columns.map colProj) then 0 else 1 := by
  unfold put_descriptions_to_superset
  by_cases hd : d.description_new = d.description
  · by_cases hcp : d.columns_new.Perm (d.columns.map colProj)
    · have hc : check_columns_equal d.columns_new (d.columns.map colProj) = true :=
        (check_columns_equal_iff_perm h1 h2).mpr hcp
      simp [hd, hcp, hc]
    · have hc : check_columns_equal d.columns_new (d.columns.map colProj) = false := by
        cases hb : check_columns_equal d.columns_new (d.columns.map colProj)
        · rfl
        · exact absurd ((check_columns_equal_iff_perm h1 h2).mp hb) hcp
      simp [hd, hcp, hc]
  · simp [hd]

/-- Witness for the amended C3 at a concrete input: the description changes
from `"a"` to `"b"` while the columns are equal, and exactly one write is
issued. -/
theorem C3_write_iff_description_or_columns_differ_witness :
    (put_descriptions_to_superset
      { id := 1, key := "s.t", columns := [], description := some "a", owners := [],
        columns_new := [], description_new := some "b", owners_new := [] }).length =
      if (some "b" : Option String) = some "a" ∧
          List.Perm ([] : List ColNew) (([] : List SstColumn).map colProj) then 0 else 1 :=
  C3_write_iff_description_or_columns_differ
    { id := 1, key := "s.t", columns := [], description := some "a", owners := [],
      columns_new := [], description_new := some "b", owners_new := [] }
    (by decide) (by decide)

/-- C1 counterexample: a dataset whose delta differs from the current state
(the delta's owners `[9]` differ from the current owner ids `[3, 7]`) on
which the first call of `put_descriptions_to_superset` already issues zero
writes, because owners never enter the write decision (lines 274-275) — so
the claim's "issues a write on the first call" fails at this input. -/
theorem C1_owners_only_delta_first_call_writes_nothing :
    (put_descriptions_to_superset
      { id := 2, key := "s.u", columns := [], description := some "d", owners := [⟨3⟩, ⟨7⟩],
        columns_new := [], description_new := some "d", owners_new := [9] }).length = 0 ∧
    [9] ≠ (([⟨3⟩, ⟨7⟩] : List Owner).map Owner.id) := by
  decide

/-- C1 (amended): if the delta's description or columns initially differ
from the current state (owner differences alone never trigger a write),
calling the writer issues one write, and calling it again on a state that
reflects the written payload — same description, columns projecting to the
written `columns_new`, unchanged delta — issues zero writes. -/
theorem C1_second_apply_is_noop (d dSecond : Dataset)
    (hdiff : d.description_new ≠ d.description ∨
      check_columns_equal d.columns_new (d.columns.map colProj) = false)
    (hdesc : dSecond.description = d.description_new)
    (hcols : dSecond.columns.map colProj = d.columns_new)
    (hdesc2 : dSecond.description_new = d.description_new)
    (hcols2 : dSecond.columns_new = d.columns_new) :
    (put_descriptions_to_superset d).length = 1 ∧
    (put_descriptions_to_superset dSecond).length = 0 := by
  constructor
  · unfold put_descriptions_to_superset
    rw [if_pos hdiff]
    rfl
  · unfold put_descriptions_to_superset
    rw [if_neg]
    · rfl
    · rintro (h | h)
      · exact h (hdesc2.trans hdesc.symm)
      · rw [hcols2, hcols] at h
        have hc : check_columns_equal d.columns_new d.columns_new = true :=
          decide_eq_true rfl
        rw [hc] at h
        exact Bool.noConfusion h

/-- Witness for the amended C1 at a concrete input: the first call (delta
description `"new"` vs current `"old"`) issues one write; the second call,
on the state reflecting the written payload, issues none. -/
theorem C1_second_apply_is_noop_witness :
    (put_descriptions_to_superset
      { id := 3, key := "s.v", columns := [], description := some "old", owners := [⟨1⟩],
        columns_new := [], description_new := some "new", owners_new := [1] }).length = 1 ∧
    (put_descriptions_to_superset
      { id := 3, key := "s.v", columns := [], description := some "new", owners := [⟨1⟩],
        columns_new := [], description_new := some "new", owners_new := [1] }).length = 0 :=
  C1_second_apply_is_noop
    { id := 3, key := "s.v", columns := [], description := some "old", owners := [⟨1⟩],
      columns_new := [], description_new := some "new", owners_new := [1] }
    { id := 3, key := "s.v", columns := [], description := some "new", owners := [⟨1⟩],
      columns_new := [], description_new := some "new", owners_new := [1] }
    (Or.inl (by decide)) rfl rfl rfl rfl

end DbtSuperset
